import Mathlib

/-!
# Verification of the interview-prep API (src/main.py)

A shallow embedding of the service layer of `src/main.py`. Python `dict`s
become association lists with Python-dict semantics (assignment overwrites
in place, otherwise appends); `uuid4()` identifiers become fresh naturals
drawn from a counter in the server state (opaque, collision-free tokens);
Python `float` scores become rationals; Python exceptions become an
explicit error sum; the external OpenAI calls are a parameter of each
operation, ranging over every possible upstream outcome (an exception, or
parsed JSON data).
-/

set_option autoImplicit false

namespace InterviewPrep

/-- `QuestionType` enum of main.py. -/
inductive QuestionType where
  | technical
  | behavioral
  | hr
  | system_design
  deriving DecidableEq, Repr

/-- `DifficultyLevel` enum of main.py. -/
inductive DifficultyLevel where
  | easy
  | medium
  | hard
  deriving DecidableEq, Repr

/-- `InterviewStatus` enum of main.py. -/
inductive InterviewStatus where
  | not_started
  | in_progress
  | completed
  deriving DecidableEq, Repr

/-- The `Question` pydantic model. `id` is the opaque uuid token, modelled
as a natural number. -/
structure Question where
  id : Nat
  question : String
  question_type : QuestionType
  difficulty : DifficultyLevel
  topics : List String
  expected_answer_points : List String
  follow_up_questions : List String
  deriving DecidableEq, Repr

/-- The `AnswerFeedback` pydantic model; `score : float` with the pydantic
bounds `ge=0, le=100` is modelled as a rational. -/
structure AnswerFeedback where
  score : ℚ
  strengths : List String
  areas_for_improvement : List String
  detailed_feedback : String
  suggested_resources : List String
  model_answer : String
  deriving DecidableEq, Repr

/-- The `AnswerSubmission` pydantic model. -/
structure AnswerSubmission where
  question_id : Nat
  user_answer : String
  time_taken_seconds : Option Int
  deriving DecidableEq, Repr

/-- The `QuestionRequest` pydantic model. -/
structure QuestionRequest where
  role : String
  question_type : QuestionType
  difficulty : DifficultyLevel
  count : Nat
  topics : Option (List String)
  deriving DecidableEq, Repr

/-- The pydantic field bounds on `QuestionRequest` (`count` between 1 and 20). -/
def validQuestionRequest (r : QuestionRequest) : Prop :=
  1 ≤ r.count ∧ r.count ≤ 20

instance (r : QuestionRequest) : Decidable (validQuestionRequest r) := by
  unfold validQuestionRequest; infer_instance

/-- The `MockInterviewRequest` pydantic model. -/
structure MockInterviewRequest where
  role : String
  duration_minutes : Nat
  question_types : List QuestionType
  difficulty : DifficultyLevel
  deriving DecidableEq, Repr

/-- One value of a session's `answers` dict:
`{"answer": ..., "feedback": ..., "time_taken": ...}`. -/
structure AnswerRecord where
  answer : String
  feedback : AnswerFeedback
  time_taken : Option Int
  deriving DecidableEq, Repr

/-- The session dict stored in `interviews_db` by `start_mock_interview`. -/
structure Session where
  interview_id : Nat
  role : String
  status : InterviewStatus
  questions : List Question
  start_time : Option Nat
  end_time : Option Nat
  answers : List (Nat × AnswerRecord)
  deriving DecidableEq, Repr

/-- The `MockInterview` response model. -/
structure MockInterview where
  interview_id : Nat
  role : String
  status : InterviewStatus
  questions : List Question
  start_time : Option Nat
  end_time : Option Nat
  deriving DecidableEq, Repr

/-- The `UserProgress` pydantic model (only read with a default by the live
path; carried in the state for frame theorems). -/
structure UserProgress where
  user_id : String
  total_questions_attempted : Nat
  average_score : ℚ
  strengths : List String
  weaknesses : List String
  improvement_trend : List ℚ
  deriving DecidableEq, Repr

/-- A raised Python exception, as observed at the HTTP layer. -/
structure HTTPException where
  status_code : Nat
  detail : String
  deriving DecidableEq, Repr

/-- The exceptions the embedded operations can raise. -/
inductive PyError where
  | httpExc (e : HTTPException)
  | keyError
  | zeroDivisionError
  deriving DecidableEq, Repr

/-! ## Python dict operations on association lists

`dinsert` is `d[k] = v`: overwrite in place if the key is present,
otherwise append (Python dicts preserve insertion order). `dget` is
`d.get(k)`. -/

/-- `d[k] = v` on an association list with Python-dict semantics. -/
def dinsert {α : Type} (k : Nat) (v : α) : List (Nat × α) → List (Nat × α)
  | [] => [(k, v)]
  | (k', v') :: rest => if k' = k then (k, v) :: rest else (k', v') :: dinsert k v rest

/-- `d.get(k)` on an association list. -/
def dget {α : Type} (k : Nat) : List (Nat × α) → Option α
  | [] => none
  | (k', v') :: rest => if k' = k then some v' else dget k rest

/-- The three process-wide in-memory stores of main.py plus the uuid
supply (`nextId`): every fresh `uuid4()` token is the current counter
value, which is then incremented. -/
structure ServerState where
  interviews_db : List (Nat × Session)
  user_progress_db : List (String × UserProgress)
  questions_db : List (Nat × Question)
  nextId : Nat
  deriving DecidableEq, Repr

/-- The stores at process start: all three dicts empty. -/
def initState : ServerState :=
  { interviews_db := [], user_progress_db := [], questions_db := [], nextId := 0 }

/-! ## Upstream (OpenAI) outcomes

Each call to `openai.ChatCompletion.create` plus the subsequent
`json.loads` / field access is modelled by a parameter ranging over
every possible outcome. -/

/-- One element of the JSON array returned by the question-generation
upstream, with all four fields present and well-typed. -/
structure RawQuestionData where
  question : String
  topics : List String
  expected_answer_points : List String
  follow_up_questions : List String
  deriving DecidableEq, Repr

/-- One element of the parsed upstream array: either a usable record, or
an item whose field access raises (missing field / wrong type). -/
inductive RawItem where
  | good (d : RawQuestionData)
  | bad
  deriving DecidableEq, Repr

/-- Outcome of the question-generation upstream call: `exn` is any
exception before the per-item loop (network failure, `json.loads`
failure, non-array response); `data items` is a successfully parsed
JSON array. -/
inductive UpstreamQ where
  | exn
  | data (items : List RawItem)
  deriving DecidableEq, Repr

/-- The JSON object returned by the answer-evaluation upstream, with all
fields present and well-typed; pydantic still checks the score bounds. -/
structure RawFeedback where
  score : ℚ
  strengths : List String
  areas_for_improvement : List String
  detailed_feedback : String
  suggested_resources : List String
  model_answer : String
  deriving DecidableEq, Repr

/-- Outcome of the answer-evaluation upstream call: `exn` is any exception
up to and including a missing/ill-typed field in the JSON object;
`data d` is a fully parsed object (which pydantic may still reject on the
score bounds). -/
inductive UpstreamE where
  | exn
  | data (d : RawFeedback)
  deriving DecidableEq, Repr

/-! ## LLM Gateway: question generation (main.py lines 110-205) -/

/-- The per-type template lists of `generate_fallback_questions`:
`templates` has keys TECHNICAL, BEHAVIORAL and HR only. -/
def fallbackTemplates : QuestionType → Option (List String)
  | .technical => some
      ["Explain the concept of {topic} and how you have used it in your projects.",
       "How would you optimize {topic} for better performance?",
       "What are the trade-offs of using {topic}?"]
  | .behavioral => some
      ["Tell me about a time when you faced a challenging deadline.",
       "Describe a situation where you had to work with a difficult team member.",
       "How do you handle failure or setbacks in your work?"]
  | .hr => some
      ["Why do you want to work for our company?",
       "What are your salary expectations?",
       "Where do you see yourself in 5 years?"]
  | .system_design => none

/-- Register a freshly built question: store it in `questions_db` under
its id (always the current uuid counter) and advance the counter. -/
def registerQuestion (q : Question) (st : ServerState) : ServerState :=
  { st with nextId := st.nextId + 1, questions_db := dinsert q.id q st.questions_db }

/-- The question built by iteration `i` of the fallback loop when the uuid
counter stands at `n`: text
`templates.get(question_type, ["Sample question"])[i % len(templates[question_type])]`
(already known to be `some tl`), fixed topic/points/follow-up lists. -/
def fallbackQuestion (qt : QuestionType) (diff : DifficultyLevel) (i : Nat) (tl : List String)
    (n : Nat) : Question :=
  { id := n
    question := ((fallbackTemplates qt).getD ["Sample question"]).getD (i % tl.length) ""
    question_type := qt
    difficulty := diff
    topics := ["general"]
    expected_answer_points := ["Provide specific examples", "Show problem-solving skills"]
    follow_up_questions := ["Can you elaborate on that?",
                            "What did you learn from this experience?"] }

/-- Loop body of `generate_fallback_questions`: for each `i` in
`range(min(count, 3))` build a question from the template list (the
subscript `templates[question_type]` raises `KeyError` when the type is
not a key of `templates`), register it in `questions_db`, append it to
the result. -/
def fallbackGo (qt : QuestionType) (diff : DifficultyLevel) :
    List Nat → List Question → ServerState → Except PyError (List Question) × ServerState
  | [], acc, st => (.ok acc, st)
  | i :: rest, acc, st =>
    match fallbackTemplates qt with
    | none => (.error .keyError, st)
    | some tl =>
      let q : Question := fallbackQuestion qt diff i tl st.nextId
      fallbackGo qt diff rest (acc ++ [q]) (registerQuestion q st)

/-- `generate_fallback_questions(role, question_type, difficulty, count)`
(main.py lines 171-205). -/
def generate_fallback_questions (role : String) (qt : QuestionType) (diff : DifficultyLevel)
    (count : Nat) (st : ServerState) : Except PyError (List Question) × ServerState :=
  fallbackGo qt diff (List.range (min count 3)) [] st

/-- The question built from one upstream record when the uuid counter
stands at `n` (main.py lines 153-161): fields copied verbatim. -/
def gptQuestion (qt : QuestionType) (diff : DifficultyLevel) (d : RawQuestionData)
    (n : Nat) : Question :=
  { id := n
    question := d.question
    question_type := qt
    difficulty := diff
    topics := d.topics
    expected_answer_points := d.expected_answer_points
    follow_up_questions := d.follow_up_questions }

/-- The per-item parse loop of `generate_questions_with_gpt` (lines
151-163): each good item becomes a `Question` with a fresh uuid,
registered in `questions_db` as it is built; a bad item raises inside the
`try`, discarding the accumulated list but keeping the registrations made
so far. -/
def parseLoop (qt : QuestionType) (diff : DifficultyLevel) :
    List RawItem → List Question → ServerState → Option (List Question) × ServerState
  | [], acc, st => (some acc, st)
  | .bad :: _, _, st => (none, st)
  | .good d :: rest, acc, st =>
    let q : Question := gptQuestion qt diff d st.nextId
    parseLoop qt diff rest (acc ++ [q]) (registerQuestion q st)

/-- `generate_questions_with_gpt(role, question_type, difficulty, count, topics)`
(main.py lines 110-169): on upstream success parse the array (any per-item
failure, like the whole-call failure, falls back to
`generate_fallback_questions`, whose own exception propagates). -/
def generate_questions_with_gpt (role : String) (qt : QuestionType) (diff : DifficultyLevel)
    (count : Nat) (topics : Option (List String)) (upstream : UpstreamQ) (st : ServerState) :
    Except PyError (List Question) × ServerState :=
  match upstream with
  | .exn => generate_fallback_questions role qt diff count st
  | .data items =>
    match parseLoop qt diff items [] st with
    | (some qs, st') => (.ok qs, st')
    | (none, st') => generate_fallback_questions role qt diff count st'

/-! ## LLM Gateway: answer evaluation (main.py lines 207-257) -/

/-- The hard-coded fallback feedback of `evaluate_answer_with_gpt`'s
`except` branch (score 75, fixed strings). -/
def fallbackFeedback : AnswerFeedback :=
  { score := 75
    strengths := ["Attempted to answer the question", "Showed relevant knowledge"]
    areas_for_improvement := ["Could provide more specific examples",
                              "Consider elaborating on key concepts"]
    detailed_feedback := "Your answer addresses the question but could be strengthened with more specific examples and deeper technical details."
    suggested_resources := ["Practice STAR method for behavioral questions",
                            "Review technical fundamentals"]
    model_answer := "A comprehensive answer would include specific examples, demonstrate deep understanding, and relate to real-world applications." }

/-- `evaluate_answer_with_gpt(question, user_answer)` (lines 207-257):
`AnswerFeedback(**feedback_data)` sits inside the `try`, so a pydantic
bounds violation on `score` also lands in the fallback. -/
def evaluate_answer_with_gpt (question : Question) (user_answer : String)
    (upstream : UpstreamE) : AnswerFeedback :=
  match upstream with
  | .exn => fallbackFeedback
  | .data d =>
    if 0 ≤ d.score ∧ d.score ≤ 100 then
      { score := d.score
        strengths := d.strengths
        areas_for_improvement := d.areas_for_improvement
        detailed_feedback := d.detailed_feedback
        suggested_resources := d.suggested_resources
        model_answer := d.model_answer }
    else fallbackFeedback

/-! ## API endpoints -/

/-- `POST /api/questions/generate` (main.py lines 274-284). -/
def generate_questions (request : QuestionRequest) (upstream : UpstreamQ) (st : ServerState) :
    Except PyError (List Question) × ServerState :=
  generate_questions_with_gpt request.role request.question_type request.difficulty
    request.count request.topics upstream st

/-- `POST /api/answers/submit` (main.py lines 286-295): 404 when the
question id is unknown, otherwise return the evaluation. -/
def submit_answer (submission : AnswerSubmission) (upstream : UpstreamE) (st : ServerState) :
    Except PyError AnswerFeedback × ServerState :=
  match dget submission.question_id st.questions_db with
  | none => (.error (.httpExc ⟨404, "Question not found"⟩), st)
  | some question =>
    (.ok (evaluate_answer_with_gpt question submission.user_answer upstream), st)

/-- The per-type generation loop of `start_mock_interview` (lines
303-313): one upstream outcome per question type, consumed in list
order; the results are accumulated with `all_questions.extend(...)`. -/
def startLoop (role : String) (diff : DifficultyLevel) (qcount : Nat)
    (upstream : Nat → UpstreamQ) :
    List QuestionType → Nat → List Question → ServerState →
    Except PyError (List Question) × ServerState
  | [], _, acc, st => (.ok acc, st)
  | qt :: rest, idx, acc, st =>
    match generate_questions_with_gpt role qt diff qcount none (upstream idx) st with
    | (.error e, st') => (.error e, st')
    | (.ok qs, st') => startLoop role diff qcount upstream rest (idx + 1) (acc ++ qs) st'

/-- `POST /api/mock-interview/start` (main.py lines 297-334):
`questions_per_type = max(2, 10 // len(request.question_types))` (a
`ZeroDivisionError` when the type list is empty), then one generation
call per requested type; the new session is stored `NOT_STARTED` with an
empty answer map. -/
def start_mock_interview (request : MockInterviewRequest) (upstream : Nat → UpstreamQ)
    (st : ServerState) : Except PyError MockInterview × ServerState :=
  if request.question_types.length = 0 then (.error .zeroDivisionError, st)
  else
    let interview_id := st.nextId
    let st1 : ServerState := { st with nextId := st.nextId + 1 }
    let qcount := max 2 (10 / request.question_types.length)
    match startLoop request.role request.difficulty qcount upstream
        request.question_types 0 [] st1 with
    | (.error e, st') => (.error e, st')
    | (.ok all_questions, st') =>
      let session : Session :=
        { interview_id := interview_id
          role := request.role
          status := .not_started
          questions := all_questions
          start_time := none
          end_time := none
          answers := [] }
      (.ok { interview_id := interview_id
             role := request.role
             status := .not_started
             questions := all_questions
             start_time := none
             end_time := none },
       { st' with interviews_db := dinsert interview_id session st'.interviews_db })

/-- `POST /api/mock-interview/{id}/begin` (main.py lines 336-347): 404
when unknown, otherwise set status `IN_PROGRESS` and stamp `start_time`
with `datetime.now()` (the clock is the `now` parameter). -/
def begin_interview (interview_id : Nat) (now : Nat) (st : ServerState) :
    Except PyError (String × Nat) × ServerState :=
  match dget interview_id st.interviews_db with
  | none => (.error (.httpExc ⟨404, "Interview not found"⟩), st)
  | some interview =>
    let interview' := { interview with status := InterviewStatus.in_progress,
                                       start_time := some now }
    (.ok ("Interview started", interview_id),
     { st with interviews_db := dinsert interview_id interview' st.interviews_db })

/-- `POST /api/mock-interview/{id}/submit-answer` (main.py lines
349-369): 404 when the interview or the question is unknown; otherwise
evaluate and store `{answer, feedback, time_taken}` under the question
id in the session's answer dict. -/
def submit_interview_answer (interview_id : Nat) (submission : AnswerSubmission)
    (upstream : UpstreamE) (st : ServerState) :
    Except PyError AnswerFeedback × ServerState :=
  match dget interview_id st.interviews_db with
  | none => (.error (.httpExc ⟨404, "Interview not found"⟩), st)
  | some interview =>
    match dget submission.question_id st.questions_db with
    | none => (.error (.httpExc ⟨404, "Question not found"⟩), st)
    | some question =>
      let feedback := evaluate_answer_with_gpt question submission.user_answer upstream
      let interview' :=
        { interview with
            answers := dinsert submission.question_id
              { answer := submission.user_answer
                feedback := feedback
                time_taken := submission.time_taken_seconds } interview.answers }
      (.ok feedback,
       { st with interviews_db := dinsert interview_id interview' st.interviews_db })

/-- `max(scores) if scores else 0` of main.py line 394. -/
def pyMaxOr0 : List ℚ → ℚ
  | [] => 0
  | x :: xs => xs.foldl max x

/-- `min(scores) if scores else 0` of main.py line 395. -/
def pyMinOr0 : List ℚ → ℚ
  | [] => 0
  | x :: xs => xs.foldl min x

/-- The `performance_summary` object of the complete response. -/
structure PerformanceSummary where
  average_score : ℚ
  highest_score : ℚ
  lowest_score : ℚ
  deriving DecidableEq, Repr

/-- The JSON body returned by `complete_interview`. -/
structure CompleteResponse where
  interview_id : Nat
  status : String
  overall_score : ℚ
  questions_answered : Nat
  total_questions : Nat
  performance_summary : PerformanceSummary
  deriving DecidableEq, Repr

/-- `POST /api/mock-interview/{id}/complete` (main.py lines 371-397): 404
when unknown; otherwise flip the status to `COMPLETED`, stamp
`end_time`, and fold the answer map's feedback scores into the summary
(`sum/len` if non-empty else 0, likewise max and min). -/
def complete_interview (interview_id : Nat) (now : Nat) (st : ServerState) :
    Except PyError CompleteResponse × ServerState :=
  match dget interview_id st.interviews_db with
  | none => (.error (.httpExc ⟨404, "Interview not found"⟩), st)
  | some interview =>
    let interview' := { interview with status := InterviewStatus.completed,
                                       end_time := some now }
    let scores := interview.answers.map (fun p => p.2.feedback.score)
    let avg_score : ℚ := if scores = [] then 0 else scores.sum / scores.length
    (.ok { interview_id := interview_id
           status := "completed"
           overall_score := avg_score
           questions_answered := interview.answers.length
           total_questions := interview.questions.length
           performance_summary :=
             { average_score := avg_score
               highest_score := pyMaxOr0 scores
               lowest_score := pyMinOr0 scores } },
     { st with interviews_db := dinsert interview_id interview' st.interviews_db })

/-! ## Dictionary lemmas -/

theorem dget_dinsert_self {α : Type} (k : Nat) (v : α) (m : List (Nat × α)) :
    dget k (dinsert k v m) = some v := by
  induction m with
  | nil => simp [dinsert, dget]
  | cons p rest ih =>
    obtain ⟨k', v'⟩ := p
    by_cases h : k' = k
    · simp [dinsert, dget, h]
    · simp [dinsert, dget, h, ih]

theorem dget_dinsert_ne {α : Type} (k k' : Nat) (v : α) (m : List (Nat × α))
    (h : k' ≠ k) : dget k' (dinsert k v m) = dget k' m := by
  have h' : ¬ (k = k') := fun hh => h hh.symm
  induction m with
  | nil => simp [dinsert, dget, h']
  | cons p rest ih =>
    obtain ⟨k'', v''⟩ := p
    by_cases h2 : k'' = k
    · subst h2
      simp [dinsert, dget, h']
    · by_cases h3 : k'' = k'
      · simp [dinsert, dget, h2, h3, h]
      · simp [dinsert, dget, h2, h3, ih]

theorem mem_keys_dinsert {α : Type} (k k' : Nat) (v : α) (m : List (Nat × α)) :
    k' ∈ (dinsert k v m).map Prod.fst ↔ k' = k ∨ k' ∈ m.map Prod.fst := by
  induction m with
  | nil => simp [dinsert]
  | cons p rest ih =>
    obtain ⟨k'', v''⟩ := p
    by_cases h : k'' = k
    · subst h
      have hd : dinsert k'' v ((k'', v'') :: rest) = (k'', v) :: rest := by simp [dinsert]
      rw [hd]
      simp only [List.map_cons, List.mem_cons]
      tauto
    · simp only [dinsert, if_neg h, List.map_cons, List.mem_cons, ih]
      tauto

theorem keys_dinsert_nodup {α : Type} (k : Nat) (v : α) (m : List (Nat × α))
    (h : (m.map Prod.fst).Nodup) : ((dinsert k v m).map Prod.fst).Nodup := by
  induction m with
  | nil => simp [dinsert]
  | cons p rest ih =>
    obtain ⟨k', v'⟩ := p
    simp only [List.map_cons, List.nodup_cons] at h
    by_cases h2 : k' = k
    · subst h2
      have hd : dinsert k' v ((k', v') :: rest) = (k', v) :: rest := by simp [dinsert]
      rw [hd]
      simp only [List.map_cons, List.nodup_cons]
      exact h
    · simp only [dinsert, if_neg h2, List.map_cons, List.nodup_cons]
      refine ⟨?_, ih h.2⟩
      intro hc
      rcases (mem_keys_dinsert k k' v rest).1 hc with rfl | hm
      · exact h2 rfl
      · exact h.1 hm

theorem dget_mem {α : Type} (k : Nat) (v : α) (m : List (Nat × α))
    (h : dget k m = some v) : (k, v) ∈ m := by
  induction m with
  | nil => simp [dget] at h
  | cons p rest ih =>
    obtain ⟨k', v'⟩ := p
    by_cases h2 : k' = k
    · subst h2
      simp [dget] at h
      simp [h]
    · simp [dget, h2] at h
      exact List.mem_cons_of_mem _ (ih h)

theorem dinsert_dinsert_self {α : Type} (k : Nat) (v v' : α) (m : List (Nat × α)) :
    dinsert k v (dinsert k v' m) = dinsert k v m := by
  induction m with
  | nil => simp [dinsert]
  | cons p rest ih =>
    obtain ⟨k', v''⟩ := p
    by_cases h : k' = k
    · subst h
      simp [dinsert]
    · simp [dinsert, h, ih]

/-! ## Sample data for concrete instantiations -/

/-- A concrete feedback value. -/
def sampleFeedback : AnswerFeedback :=
  { score := 80, strengths := ["s"], areas_for_improvement := ["a"],
    detailed_feedback := "d", suggested_resources := ["r"], model_answer := "m" }

/-- A concrete question with a chosen id. -/
def sampleQuestion (n : Nat) : Question :=
  { id := n, question := "Q", question_type := .technical, difficulty := .medium,
    topics := ["t"], expected_answer_points := ["p"], follow_up_questions := ["f"] }

/-- A concrete session with two recorded answers. -/
def sampleSession : Session :=
  { interview_id := 0, role := "SE", status := .not_started,
    questions := [sampleQuestion 1], start_time := none, end_time := none,
    answers := [(1, ⟨"ans", sampleFeedback, none⟩), (2, ⟨"ans2", fallbackFeedback, some 30⟩)] }

/-- A concrete server state holding `sampleSession` and two questions. -/
def sampleState : ServerState :=
  { interviews_db := [(0, sampleSession)], user_progress_db := [],
    questions_db := [(1, sampleQuestion 1), (2, sampleQuestion 2)], nextId := 3 }

/-! ## Claims -/

/-- C1: the claim says `generate_fallback_questions` returns `min(count, 3)`
template questions and never raises, for every type including
`system_design`; but `templates` has no SYSTEM_DESIGN key, so the subscript
`templates[question_type]` raises `KeyError` for `system_design` (the dead
`.get(..., ["Sample question"])` default shows the crash is a slip, not
intent). This theorem evaluates the embedded function at the failing
input. -/
theorem fallback_system_design_keyerror :
    generate_fallback_questions "Software Engineer" QuestionType.system_design
      DifficultyLevel.medium 1 initState = (.error .keyError, initState) := by
  rfl

/-- C6: every operation given an unknown identifier returns HTTP 404 with
the state unchanged (so no store is mutated and the evaluator is never
reached): standalone submit with an unknown question id; begin,
in-session submit (unknown interview, or known interview with unknown
question), and complete with an unknown interview id. -/
theorem unknown_ids_yield_404 :
    (∀ (sub : AnswerSubmission) (upstream : UpstreamE) (st : ServerState),
      dget sub.question_id st.questions_db = none →
      submit_answer sub upstream st = (.error (.httpExc ⟨404, "Question not found"⟩), st)) ∧
    (∀ (iid now : Nat) (st : ServerState),
      dget iid st.interviews_db = none →
      begin_interview iid now st = (.error (.httpExc ⟨404, "Interview not found"⟩), st)) ∧
    (∀ (iid : Nat) (sub : AnswerSubmission) (upstream : UpstreamE) (st : ServerState),
      dget iid st.interviews_db = none →
      submit_interview_answer iid sub upstream st =
        (.error (.httpExc ⟨404, "Interview not found"⟩), st)) ∧
    (∀ (iid : Nat) (sub : AnswerSubmission) (upstream : UpstreamE) (st : ServerState)
        (itv : Session),
      dget iid st.interviews_db = some itv →
      dget sub.question_id st.questions_db = none →
      submit_interview_answer iid sub upstream st =
        (.error (.httpExc ⟨404, "Question not found"⟩), st)) ∧
    (∀ (iid now : Nat) (st : ServerState),
      dget iid st.interviews_db = none →
      complete_interview iid now st = (.error (.httpExc ⟨404, "Interview not found"⟩), st)) := by
  refine ⟨?_, ?_, ?_, ?_, ?_⟩
  · intro sub upstream st h
    unfold submit_answer
    rw [h]
  · intro iid now st h
    unfold begin_interview
    rw [h]
  · intro iid sub upstream st h
    unfold submit_interview_answer
    rw [h]
  · intro iid sub upstream st itv h hq
    unfold submit_interview_answer
    rw [h, hq]
  · intro iid now st h
    unfold complete_interview
    rw [h]

/-- C6 witness: the 404 paths exercised at concrete unknown identifiers on
a concrete state. -/
theorem unknown_ids_yield_404_witness :
    (dget 9 sampleState.questions_db = none ∧
      submit_answer ⟨9, "a", none⟩ .exn sampleState =
        (.error (.httpExc ⟨404, "Question not found"⟩), sampleState)) ∧
    (dget 7 sampleState.interviews_db = none ∧
      begin_interview 7 0 sampleState =
        (.error (.httpExc ⟨404, "Interview not found"⟩), sampleState)) ∧
    (submit_interview_answer 7 ⟨1, "a", none⟩ .exn sampleState =
        (.error (.httpExc ⟨404, "Interview not found"⟩), sampleState)) ∧
    (submit_interview_answer 0 ⟨9, "a", none⟩ .exn sampleState =
        (.error (.httpExc ⟨404, "Question not found"⟩), sampleState)) ∧
    (complete_interview 7 0 sampleState =
        (.error (.httpExc ⟨404, "Interview not found"⟩), sampleState)) :=
  ⟨⟨by rfl, unknown_ids_yield_404.1 ⟨9, "a", none⟩ .exn sampleState (by rfl)⟩,
   ⟨by rfl, unknown_ids_yield_404.2.1 7 0 sampleState (by rfl)⟩,
   unknown_ids_yield_404.2.2.1 7 ⟨1, "a", none⟩ .exn sampleState (by rfl),
   unknown_ids_yield_404.2.2.2.1 0 ⟨9, "a", none⟩ .exn sampleState sampleSession
     (by rfl) (by rfl),
   unknown_ids_yield_404.2.2.2.2 7 0 sampleState (by rfl)⟩

/-- The state with session `itv` stored under `iid` (helper for stating
frame/effect theorems). -/
def withSession (st : ServerState) (iid : Nat) (itv : Session) : ServerState :=
  { st with interviews_db := dinsert iid itv st.interviews_db }

/-- The session record after `begin`: only status and start time change. -/
def beganSession (itv : Session) (now : Nat) : Session :=
  { itv with status := InterviewStatus.in_progress, start_time := some now }

/-- C8: for every known session in any state, begin sets the status to
`in_progress` and stamps the start time, leaving every other field of the
session record (role, questions, end time, answers) unchanged; there is
no precondition on the current status, and a second begin only resets the
start timestamp. -/
theorem begin_sets_in_progress (iid now : Nat) (st : ServerState) (itv : Session)
    (h : dget iid st.interviews_db = some itv) :
    begin_interview iid now st =
      (.ok ("Interview started", iid), withSession st iid (beganSession itv now)) ∧
    (∀ now2 : Nat,
      (begin_interview iid now2 (begin_interview iid now st).2).2 =
        withSession st iid (beganSession itv now2)) := by
  have h1 : begin_interview iid now st =
      (.ok ("Interview started", iid), withSession st iid (beganSession itv now)) := by
    unfold begin_interview
    rw [h]
    rfl
  refine ⟨h1, ?_⟩
  intro now2
  rw [h1]
  unfold begin_interview
  have h2 : dget iid (withSession st iid (beganSession itv now)).interviews_db =
      some (beganSession itv now) := dget_dinsert_self ..
  rw [h2]
  simp only [withSession, beganSession, dinsert_dinsert_self]

/-- C8 witness: begin on the sample state, which holds session 0 in state
`not_started`. -/
theorem begin_sets_in_progress_witness :
    dget 0 sampleState.interviews_db = some sampleSession ∧
    (begin_interview 0 5 sampleState =
      (.ok ("Interview started", 0), withSession sampleState 0 (beganSession sampleSession 5)) ∧
    (∀ now2 : Nat,
      (begin_interview 0 now2 (begin_interview 0 5 sampleState).2).2 =
        withSession sampleState 0 (beganSession sampleSession now2))) :=
  ⟨by rfl, begin_sets_in_progress 0 5 sampleState sampleSession (by rfl)⟩

/-! ## Order lemmas for the Python `max(...)` / `min(...)` folds -/

theorem foldl_max_mem (xs : List ℚ) (x : ℚ) : xs.foldl max x ∈ x :: xs := by
  induction xs generalizing x with
  | nil => simp [List.foldl]
  | cons y ys ih =>
    simp only [List.foldl_cons]
    rcases List.mem_cons.1 (ih (max x y)) with h1 | h1
    · rcases max_choice x y with hc | hc
      · rw [h1, hc]
        exact List.mem_cons_self _ _
      · rw [h1, hc]
        exact List.mem_cons_of_mem _ (List.mem_cons_self _ _)
    · exact List.mem_cons_of_mem _ (List.mem_cons_of_mem _ h1)

theorem le_foldl_max (xs : List ℚ) (x : ℚ) : ∀ y ∈ x :: xs, y ≤ xs.foldl max x := by
  induction xs generalizing x with
  | nil =>
    intro y hy
    simp only [List.mem_singleton] at hy
    simp [hy]
  | cons z zs ih =>
    intro y hy
    simp only [List.foldl_cons]
    have hbase : max x z ≤ zs.foldl max (max x z) :=
      ih (max x z) (max x z) (List.mem_cons_self _ _)
    rcases List.mem_cons.1 hy with rfl | hy2
    · exact le_trans (le_max_left y z) hbase
    · rcases List.mem_cons.1 hy2 with rfl | hy3
      · exact le_trans (le_max_right x y) hbase
      · exact ih (max x z) y (List.mem_cons_of_mem _ hy3)

theorem foldl_min_mem (xs : List ℚ) (x : ℚ) : xs.foldl min x ∈ x :: xs := by
  induction xs generalizing x with
  | nil => simp [List.foldl]
  | cons y ys ih =>
    simp only [List.foldl_cons]
    rcases List.mem_cons.1 (ih (min x y)) with h1 | h1
    · rcases min_choice x y with hc | hc
      · rw [h1, hc]
        exact List.mem_cons_self _ _
      · rw [h1, hc]
        exact List.mem_cons_of_mem _ (List.mem_cons_self _ _)
    · exact List.mem_cons_of_mem _ (List.mem_cons_of_mem _ h1)

theorem foldl_min_le (xs : List ℚ) (x : ℚ) : ∀ y ∈ x :: xs, xs.foldl min x ≤ y := by
  induction xs generalizing x with
  | nil =>
    intro y hy
    simp only [List.mem_singleton] at hy
    simp [hy]
  | cons z zs ih =>
    intro y hy
    simp only [List.foldl_cons]
    have hbase : zs.foldl min (min x z) ≤ min x z :=
      ih (min x z) (min x z) (List.mem_cons_self _ _)
    rcases List.mem_cons.1 hy with rfl | hy2
    · exact le_trans hbase (min_le_left y z)
    · rcases List.mem_cons.1 hy2 with rfl | hy3
      · exact le_trans hbase (min_le_right x y)
      · exact ih (min x z) y (List.mem_cons_of_mem _ hy3)

theorem pyMaxOr0_mem (l : List ℚ) (h : l ≠ []) : pyMaxOr0 l ∈ l := by
  cases l with
  | nil => exact absurd rfl h
  | cons x xs => exact foldl_max_mem xs x

theorem le_pyMaxOr0 (l : List ℚ) : ∀ s ∈ l, s ≤ pyMaxOr0 l := by
  cases l with
  | nil => intro s hs; simp at hs
  | cons x xs => exact le_foldl_max xs x

theorem pyMinOr0_mem (l : List ℚ) (h : l ≠ []) : pyMinOr0 l ∈ l := by
  cases l with
  | nil => exact absurd rfl h
  | cons x xs => exact foldl_min_mem xs x

theorem pyMinOr0_le (l : List ℚ) : ∀ s ∈ l, pyMinOr0 l ≤ s := by
  cases l with
  | nil => intro s hs; simp at hs
  | cons x xs => exact foldl_min_le xs x

/-! ## C2 and C9: the complete operation -/

/-- The feedback scores recorded in a session's answer map, in map order. -/
def answerScores (answers : List (Nat × AnswerRecord)) : List ℚ :=
  answers.map (fun p => p.2.feedback.score)

/-- The session record after `complete`: only status and end time change. -/
def completedSession (itv : Session) (now : Nat) : Session :=
  { itv with status := InterviewStatus.completed, end_time := some now }

/-- C9: for every known session, complete mutates only that session's
status and end-time fields: role, question list, start time and answer
map of that session, every other session, the Question Store, the
Progress Store and the uuid counter are unchanged (and the operation
takes no upstream parameter: no external call occurs in the embedding). -/
theorem complete_frame (iid now : Nat) (st : ServerState) (itv : Session)
    (h : dget iid st.interviews_db = some itv) :
    ∃ resp : CompleteResponse,
      complete_interview iid now st = (.ok resp, withSession st iid (completedSession itv now)) ∧
      dget iid (withSession st iid (completedSession itv now)).interviews_db =
        some (completedSession itv now) ∧
      (completedSession itv now).status = InterviewStatus.completed ∧
      (completedSession itv now).end_time = some now ∧
      (completedSession itv now).role = itv.role ∧
      (completedSession itv now).questions = itv.questions ∧
      (completedSession itv now).start_time = itv.start_time ∧
      (completedSession itv now).answers = itv.answers ∧
      (∀ iid2, iid2 ≠ iid →
        dget iid2 (withSession st iid (completedSession itv now)).interviews_db =
          dget iid2 st.interviews_db) ∧
      (withSession st iid (completedSession itv now)).questions_db = st.questions_db ∧
      (withSession st iid (completedSession itv now)).user_progress_db = st.user_progress_db ∧
      (withSession st iid (completedSession itv now)).nextId = st.nextId := by
  have hrun : (complete_interview iid now st).2 = withSession st iid (completedSession itv now) ∧
      ∃ resp, complete_interview iid now st =
        (.ok resp, withSession st iid (completedSession itv now)) := by
    unfold complete_interview
    rw [h]
    exact ⟨rfl, _, rfl⟩
  obtain ⟨-, resp, hresp⟩ := hrun
  exact ⟨resp, hresp, dget_dinsert_self .., rfl, rfl, rfl, rfl, rfl, rfl,
    fun iid2 h2 => dget_dinsert_ne iid iid2 _ _ h2, rfl, rfl, rfl⟩

/-- C9 witness: complete on the sample state's session 0. -/
theorem complete_frame_witness :
    dget 0 sampleState.interviews_db = some sampleSession ∧
    (∃ resp : CompleteResponse,
      complete_interview 0 9 sampleState =
        (.ok resp, withSession sampleState 0 (completedSession sampleSession 9)) ∧
      dget 0 (withSession sampleState 0 (completedSession sampleSession 9)).interviews_db =
        some (completedSession sampleSession 9) ∧
      (completedSession sampleSession 9).status = InterviewStatus.completed ∧
      (completedSession sampleSession 9).end_time = some 9 ∧
      (completedSession sampleSession 9).role = sampleSession.role ∧
      (completedSession sampleSession 9).questions = sampleSession.questions ∧
      (completedSession sampleSession 9).start_time = sampleSession.start_time ∧
      (completedSession sampleSession 9).answers = sampleSession.answers ∧
      (∀ iid2, iid2 ≠ 0 →
        dget iid2 (withSession sampleState 0 (completedSession sampleSession 9)).interviews_db =
          dget iid2 sampleState.interviews_db) ∧
      (withSession sampleState 0 (completedSession sampleSession 9)).questions_db =
        sampleState.questions_db ∧
      (withSession sampleState 0 (completedSession sampleSession 9)).user_progress_db =
        sampleState.user_progress_db ∧
      (withSession sampleState 0 (completedSession sampleSession 9)).nextId =
        sampleState.nextId) :=
  ⟨by rfl, complete_frame 0 9 sampleState sampleSession (by rfl)⟩

/-- C2: for every known session, complete returns `overall_score` and
`performance_summary.average_score` both equal to the arithmetic mean
(sum divided by count) of the feedback scores in the answer map,
`highest_score`/`lowest_score` equal to the maximum/minimum of those
scores, and `questions_answered` equal to the number of distinct answered
question ids (the answer map is keyed by question id, so duplicates count
once); when the answer map is empty all four are 0. -/
theorem complete_summary (iid now : Nat) (st : ServerState) (itv : Session)
    (h : dget iid st.interviews_db = some itv)
    (hnd : (itv.answers.map Prod.fst).Nodup) :
    ∃ (resp : CompleteResponse) (st' : ServerState),
      complete_interview iid now st = (.ok resp, st') ∧
      resp.overall_score = resp.performance_summary.average_score ∧
      resp.questions_answered = (itv.answers.map Prod.fst).toFinset.card ∧
      (itv.answers ≠ [] →
        resp.overall_score =
          (answerScores itv.answers).sum / (answerScores itv.answers).length ∧
        resp.performance_summary.highest_score ∈ answerScores itv.answers ∧
        (∀ s ∈ answerScores itv.answers, s ≤ resp.performance_summary.highest_score) ∧
        resp.performance_summary.lowest_score ∈ answerScores itv.answers ∧
        (∀ s ∈ answerScores itv.answers, resp.performance_summary.lowest_score ≤ s)) ∧
      (itv.answers = [] →
        resp.overall_score = 0 ∧
        resp.performance_summary.highest_score = 0 ∧
        resp.performance_summary.lowest_score = 0 ∧
        resp.questions_answered = 0) := by
  have hrun : complete_interview iid now st =
      (.ok { interview_id := iid
             status := "completed"
             overall_score := if answerScores itv.answers = [] then 0
               else (answerScores itv.answers).sum / (answerScores itv.answers).length
             questions_answered := itv.answers.length
             total_questions := itv.questions.length
             performance_summary :=
               { average_score := if answerScores itv.answers = [] then 0
                   else (answerScores itv.answers).sum / (answerScores itv.answers).length
                 highest_score := pyMaxOr0 (answerScores itv.answers)
                 lowest_score := pyMinOr0 (answerScores itv.answers) } },
       withSession st iid (completedSession itv now)) := by
    unfold complete_interview
    rw [h]
    rfl
  refine ⟨_, _, hrun, rfl, ?_, ?_, ?_⟩
  · show itv.answers.length = (itv.answers.map Prod.fst).toFinset.card
    rw [List.toFinset_card_of_nodup hnd, List.length_map]
  · intro hne
    have hsne : answerScores itv.answers ≠ [] := by
      simpa [answerScores] using hne
    refine ⟨?_, pyMaxOr0_mem _ hsne, le_pyMaxOr0 _, pyMinOr0_mem _ hsne, pyMinOr0_le _⟩
    show (if answerScores itv.answers = [] then 0
      else (answerScores itv.answers).sum / (answerScores itv.answers).length) = _
    rw [if_neg hsne]
  · intro hemp
    have hse : answerScores itv.answers = [] := by simp [answerScores, hemp]
    refine ⟨?_, ?_, ?_, ?_⟩
    · show (if answerScores itv.answers = [] then (0 : ℚ) else _) = 0
      rw [if_pos hse]
    · show pyMaxOr0 (answerScores itv.answers) = 0
      rw [hse]
      rfl
    · show pyMinOr0 (answerScores itv.answers) = 0
      rw [hse]
      rfl
    · show itv.answers.length = 0
      simp [hemp]

/-- C2 witness: complete on the sample session, whose two recorded scores
are 80 and 75. -/
theorem complete_summary_witness :
    (dget 0 sampleState.interviews_db = some sampleSession ∧
      (sampleSession.answers.map Prod.fst).Nodup) ∧
    (∃ (resp : CompleteResponse) (st' : ServerState),
      complete_interview 0 9 sampleState = (.ok resp, st') ∧
      resp.overall_score = resp.performance_summary.average_score ∧
      resp.questions_answered = (sampleSession.answers.map Prod.fst).toFinset.card ∧
      (sampleSession.answers ≠ [] →
        resp.overall_score =
          (answerScores sampleSession.answers).sum / (answerScores sampleSession.answers).length ∧
        resp.performance_summary.highest_score ∈ answerScores sampleSession.answers ∧
        (∀ s ∈ answerScores sampleSession.answers,
          s ≤ resp.performance_summary.highest_score) ∧
        resp.performance_summary.lowest_score ∈ answerScores sampleSession.answers ∧
        (∀ s ∈ answerScores sampleSession.answers,
          resp.performance_summary.lowest_score ≤ s)) ∧
      (sampleSession.answers = [] →
        resp.overall_score = 0 ∧
        resp.performance_summary.highest_score = 0 ∧
        resp.performance_summary.lowest_score = 0 ∧
        resp.questions_answered = 0)) :=
  ⟨⟨by rfl, by decide⟩, complete_summary 0 9 sampleState sampleSession (by rfl) (by decide)⟩

/-! ## C7: in-session answer submission -/

/-- C7: for every known session, in-session submit-answer accepts any
question id present in the Question Store (no hypothesis relates the
question to the session's own question list; the witness below submits a
question that is not in it), and stores {answer text, feedback, time
taken} in the session's answer map keyed by the question id, overwriting
any previously stored entry for that id and leaving every other key's
entry unchanged, so the map holds exactly the latest submission per id
(distinct keys stay distinct). -/
theorem submit_answer_overwrites (iid : Nat) (sub : AnswerSubmission) (upstream : UpstreamE)
    (st : ServerState) (itv : Session) (q : Question)
    (hi : dget iid st.interviews_db = some itv)
    (hq : dget sub.question_id st.questions_db = some q) :
    let fb := evaluate_answer_with_gpt q sub.user_answer upstream
    let stored : AnswerRecord := ⟨sub.user_answer, fb, sub.time_taken_seconds⟩
    let itv' : Session := { itv with answers := dinsert sub.question_id stored itv.answers }
    submit_interview_answer iid sub upstream st = (.ok fb, withSession st iid itv') ∧
    dget sub.question_id itv'.answers = some stored ∧
    (∀ k, k ≠ sub.question_id → dget k itv'.answers = dget k itv.answers) ∧
    ((itv.answers.map Prod.fst).Nodup → (itv'.answers.map Prod.fst).Nodup) := by
  intro fb stored itv'
  refine ⟨?_, dget_dinsert_self .., fun k hk => dget_dinsert_ne _ k _ _ hk,
    fun hnd => keys_dinsert_nodup _ _ _ hnd⟩
  unfold submit_interview_answer
  rw [hi, hq]
  rfl

/-- C7 witness: submit an answer for question 2, which is registered in
the Question Store but absent from session 0's own question list; the
session's prior entry for key 2 is overwritten. -/
theorem submit_answer_overwrites_witness :
    (dget 0 sampleState.interviews_db = some sampleSession ∧
      dget 2 sampleState.questions_db = some (sampleQuestion 2) ∧
      sampleQuestion 2 ∉ sampleSession.questions) ∧
    (let fb := evaluate_answer_with_gpt (sampleQuestion 2) "new answer" .exn
     let stored : AnswerRecord := ⟨"new answer", fb, some 10⟩
     let itv' : Session :=
       { sampleSession with answers := dinsert 2 stored sampleSession.answers }
     submit_interview_answer 0 ⟨2, "new answer", some 10⟩ .exn sampleState =
       (.ok fb, withSession sampleState 0 itv') ∧
     dget 2 itv'.answers = some stored ∧
     (∀ k, k ≠ 2 → dget k itv'.answers = dget k sampleSession.answers) ∧
     ((sampleSession.answers.map Prod.fst).Nodup → (itv'.answers.map Prod.fst).Nodup)) :=
  ⟨⟨by rfl, by rfl, by decide⟩,
   submit_answer_overwrites 0 ⟨2, "new answer", some 10⟩ .exn sampleState sampleSession
     (sampleQuestion 2) (by rfl) (by rfl)⟩

/-! ## C4: feedback score bounds and the evaluation fallback -/

/-- The answer-evaluation upstream outcomes that land in the `except`
branch: an exception, or a parsed object that pydantic rejects on the
`score` bounds. -/
def evalFailed (upstream : UpstreamE) : Prop :=
  upstream = .exn ∨ ∃ d, upstream = .data d ∧ ¬(0 ≤ d.score ∧ d.score ≤ 100)

theorem eval_score_bounds (q : Question) (ans : String) (upstream : UpstreamE) :
    0 ≤ (evaluate_answer_with_gpt q ans upstream).score ∧
    (evaluate_answer_with_gpt q ans upstream).score ≤ 100 := by
  cases upstream with
  | exn =>
    constructor <;> norm_num [evaluate_answer_with_gpt, fallbackFeedback]
  | data d =>
    by_cases hb : 0 ≤ d.score ∧ d.score ≤ 100
    · simp [evaluate_answer_with_gpt, hb]
    · have : evaluate_answer_with_gpt q ans (.data d) = fallbackFeedback := by
        simp [evaluate_answer_with_gpt, hb]
      rw [this]
      constructor <;> norm_num [fallbackFeedback]

theorem eval_failed_gives_fallback (q : Question) (ans : String) (upstream : UpstreamE)
    (h : evalFailed upstream) :
    evaluate_answer_with_gpt q ans upstream = fallbackFeedback := by
  rcases h with rfl | ⟨d, rfl, hd⟩
  · rfl
  · simp [evaluate_answer_with_gpt, hd]

/-- C4: every feedback the evaluation operation returns has a score in
[0,100]; the fixed fallback value has score 75; and whenever the upstream
raises or its response fails to validate, the result is exactly that
fallback, independent of question and answer — on the standalone submit
endpoint and the in-session one alike. -/
theorem feedback_score_bounds_and_fallback (upstream : UpstreamE) :
    fallbackFeedback.score = 75 ∧
    (∀ (q : Question) (ans : String),
      0 ≤ (evaluate_answer_with_gpt q ans upstream).score ∧
      (evaluate_answer_with_gpt q ans upstream).score ≤ 100) ∧
    (evalFailed upstream →
      ∀ (q q2 : Question) (ans ans2 : String),
        evaluate_answer_with_gpt q ans upstream = fallbackFeedback ∧
        evaluate_answer_with_gpt q ans upstream = evaluate_answer_with_gpt q2 ans2 upstream) ∧
    (∀ (sub : AnswerSubmission) (st : ServerState) (fb : AnswerFeedback) (st' : ServerState),
      submit_answer sub upstream st = (.ok fb, st') →
      0 ≤ fb.score ∧ fb.score ≤ 100 ∧ (evalFailed upstream → fb = fallbackFeedback)) ∧
    (∀ (iid : Nat) (sub : AnswerSubmission) (st : ServerState) (fb : AnswerFeedback)
        (st' : ServerState),
      submit_interview_answer iid sub upstream st = (.ok fb, st') →
      0 ≤ fb.score ∧ fb.score ≤ 100 ∧ (evalFailed upstream → fb = fallbackFeedback)) := by
  refine ⟨rfl, fun q ans => eval_score_bounds q ans upstream,
    fun hf q q2 ans ans2 =>
      ⟨eval_failed_gives_fallback q ans upstream hf,
       (eval_failed_gives_fallback q ans upstream hf).trans
         (eval_failed_gives_fallback q2 ans2 upstream hf).symm⟩,
    ?_, ?_⟩
  · intro sub st fb st' heq
    cases hq : dget sub.question_id st.questions_db with
    | none =>
      unfold submit_answer at heq
      rw [hq] at heq
      exact absurd (congrArg Prod.fst heq) (by simp)
    | some q =>
      unfold submit_answer at heq
      rw [hq] at heq
      have hfb : fb = evaluate_answer_with_gpt q sub.user_answer upstream := by
        have := congrArg Prod.fst heq
        simpa using this.symm
      subst hfb
      exact ⟨(eval_score_bounds ..).1, (eval_score_bounds ..).2,
        fun hf => eval_failed_gives_fallback _ _ _ hf⟩
  · intro iid sub st fb st' heq
    cases hi : dget iid st.interviews_db with
    | none =>
      unfold submit_interview_answer at heq
      rw [hi] at heq
      exact absurd (congrArg Prod.fst heq) (by simp)
    | some itv =>
      cases hq : dget sub.question_id st.questions_db with
      | none =>
        unfold submit_interview_answer at heq
        rw [hi, hq] at heq
        exact absurd (congrArg Prod.fst heq) (by simp)
      | some q =>
        unfold submit_interview_answer at heq
        rw [hi, hq] at heq
        have hfb : fb = evaluate_answer_with_gpt q sub.user_answer upstream := by
          have := congrArg Prod.fst heq
          simpa using this.symm
        subst hfb
        exact ⟨(eval_score_bounds ..).1, (eval_score_bounds ..).2,
          fun hf => eval_failed_gives_fallback _ _ _ hf⟩

/-- C4 witness: an upstream exception on the standalone submit endpoint
yields exactly the fallback feedback for a registered question. -/
theorem feedback_score_bounds_witness :
    (evalFailed .exn ∧
      evaluate_answer_with_gpt (sampleQuestion 1) "a" .exn = fallbackFeedback) ∧
    (submit_answer ⟨1, "a", none⟩ .exn sampleState = (.ok fallbackFeedback, sampleState) ∧
      (0 ≤ fallbackFeedback.score ∧ fallbackFeedback.score ≤ 100 ∧
        (evalFailed .exn → fallbackFeedback = fallbackFeedback))) :=
  ⟨⟨Or.inl rfl,
    ((feedback_score_bounds_and_fallback .exn).2.2.1 (Or.inl rfl)
      (sampleQuestion 1) (sampleQuestion 1) "a" "a").1⟩,
   ⟨by rfl,
    (feedback_score_bounds_and_fallback .exn).2.2.2.1 ⟨1, "a", none⟩ sampleState
      fallbackFeedback sampleState (by rfl)⟩⟩

/-! ## Registration invariant for generated questions -/

/-- Every question in `qs` is registered in the Question Store under its
own id, and its id is below the uuid counter (so later fresh ids cannot
collide with it). -/
def regOK (qs : List Question) (st : ServerState) : Prop :=
  ∀ q ∈ qs, dget q.id st.questions_db = some q ∧ q.id < st.nextId

theorem regOK_nil (st : ServerState) : regOK [] st := by
  intro q hq
  simp at hq

theorem regOK_insert (qs : List Question) (st : ServerState) (q : Question)
    (hq : q.id = st.nextId) (h : regOK qs st) :
    regOK (qs ++ [q]) (registerQuestion q st) := by
  unfold registerQuestion
  intro p hp
  rcases List.mem_append.1 hp with hp | hp
  · obtain ⟨h1, h2⟩ := h p hp
    have hne : p.id ≠ q.id := by
      rw [hq]
      exact Nat.ne_of_lt h2
    exact ⟨by rw [show dget p.id (dinsert q.id q st.questions_db) = dget p.id st.questions_db
        from dget_dinsert_ne _ _ _ _ hne]; exact h1,
      Nat.lt_succ_of_lt h2⟩
  · rw [List.mem_singleton] at hp
    subst hp
    exact ⟨dget_dinsert_self .., by rw [hq]; exact Nat.lt_succ_self _⟩

theorem regOK_frame_insert (qs : List Question) (st : ServerState) (q : Question)
    (hq : q.id = st.nextId) (h : regOK qs st) :
    regOK qs (registerQuestion q st) := by
  unfold registerQuestion
  intro p hp
  obtain ⟨h1, h2⟩ := h p hp
  have hne : p.id ≠ q.id := by
    rw [hq]
    exact Nat.ne_of_lt h2
  exact ⟨by rw [show dget p.id (dinsert q.id q st.questions_db) = dget p.id st.questions_db
      from dget_dinsert_ne _ _ _ _ hne]; exact h1,
    Nat.lt_succ_of_lt h2⟩

/-- Any run of the fallback loop preserves registration of a frame list
and never decreases the uuid counter. -/
theorem fallbackGo_preserves (qt : QuestionType) (diff : DifficultyLevel)
    (qs0 : List Question) :
    ∀ (idxs : List Nat) (acc : List Question) (st : ServerState)
      (res : Except PyError (List Question)) (st' : ServerState),
      fallbackGo qt diff idxs acc st = (res, st') → regOK qs0 st →
      regOK qs0 st' ∧ st.nextId ≤ st'.nextId := by
  intro idxs
  induction idxs with
  | nil =>
    intro acc st res st' heq h0
    unfold fallbackGo at heq
    cases heq
    exact ⟨h0, le_refl _⟩
  | cons i rest ih =>
    intro acc st res st' heq h0
    unfold fallbackGo at heq
    cases htl : fallbackTemplates qt with
    | none =>
      rw [htl] at heq
      cases heq
      exact ⟨h0, le_refl _⟩
    | some tl =>
      rw [htl] at heq
      have := ih _ _ _ _ heq (regOK_frame_insert qs0 st _ rfl h0)
      exact ⟨this.1, le_trans (Nat.le_succ _) this.2⟩

/-- A successful run of the fallback loop leaves every produced question
registered. -/
theorem fallbackGo_regOK (qt : QuestionType) (diff : DifficultyLevel) :
    ∀ (idxs : List Nat) (acc : List Question) (st : ServerState)
      (qs : List Question) (st' : ServerState),
      fallbackGo qt diff idxs acc st = (.ok qs, st') → regOK acc st →
      regOK qs st' ∧ st.nextId ≤ st'.nextId := by
  intro idxs
  induction idxs with
  | nil =>
    intro acc st qs st' heq h0
    unfold fallbackGo at heq
    cases heq
    exact ⟨h0, le_refl _⟩
  | cons i rest ih =>
    intro acc st qs st' heq h0
    unfold fallbackGo at heq
    cases htl : fallbackTemplates qt with
    | none =>
      rw [htl] at heq
      cases heq
    | some tl =>
      rw [htl] at heq
      have := ih _ _ _ _ heq (regOK_insert acc st _ rfl h0)
      exact ⟨this.1, le_trans (Nat.le_succ _) this.2⟩

/-- A successful run of the fallback loop appends exactly one question
per index, each carrying the fixed non-empty template fields. -/
theorem fallbackGo_ok_spec (qt : QuestionType) (diff : DifficultyLevel) (tl : List String)
    (htl : fallbackTemplates qt = some tl) :
    ∀ (idxs : List Nat) (acc : List Question) (st : ServerState),
      ∃ (qs : List Question) (st' : ServerState),
        fallbackGo qt diff idxs acc st = (.ok qs, st') ∧
        qs.length = acc.length + idxs.length ∧
        ∀ q ∈ qs, q ∈ acc ∨
          (q.topics = ["general"] ∧
           q.expected_answer_points = ["Provide specific examples",
             "Show problem-solving skills"] ∧
           q.follow_up_questions = ["Can you elaborate on that?",
             "What did you learn from this experience?"]) := by
  intro idxs
  induction idxs with
  | nil =>
    intro acc st
    exact ⟨acc, st, by unfold fallbackGo; rfl, by simp, fun q hq => Or.inl hq⟩
  | cons i rest ih =>
    intro acc st
    obtain ⟨qs, st', heq, hlen, hfields⟩ :=
      ih (acc ++ [fallbackQuestion qt diff i tl st.nextId]) (registerQuestion
        (fallbackQuestion qt diff i tl st.nextId) st)
    refine ⟨qs, st', ?_, ?_, ?_⟩
    · unfold fallbackGo
      rw [htl]
      exact heq
    · rw [hlen]
      simp only [List.length_append, List.length_cons, List.length_nil]
      omega
    · intro q hq
      rcases hfields q hq with hmem | hfix
      · rcases List.mem_append.1 hmem with hmem2 | hmem2
        · exact Or.inl hmem2
        · rw [List.mem_singleton] at hmem2
          subst hmem2
          exact Or.inr ⟨rfl, rfl, rfl⟩
      · exact Or.inr hfix

/-- Any run of the parse loop preserves registration of a frame list and
never decreases the uuid counter. -/
theorem parseLoop_preserves (qt : QuestionType) (diff : DifficultyLevel)
    (qs0 : List Question) :
    ∀ (items : List RawItem) (acc : List Question) (st : ServerState)
      (res : Option (List Question)) (st' : ServerState),
      parseLoop qt diff items acc st = (res, st') → regOK qs0 st →
      regOK qs0 st' ∧ st.nextId ≤ st'.nextId := by
  intro items
  induction items with
  | nil =>
    intro acc st res st' heq h0
    unfold parseLoop at heq
    cases heq
    exact ⟨h0, le_refl _⟩
  | cons it rest ih =>
    intro acc st res st' heq h0
    cases it with
    | bad =>
      unfold parseLoop at heq
      cases heq
      exact ⟨h0, le_refl _⟩
    | good d =>
      unfold parseLoop at heq
      have := ih _ _ _ _ heq (regOK_frame_insert qs0 st _ rfl h0)
      exact ⟨this.1, le_trans (Nat.le_succ _) this.2⟩

/-- A successful run of the parse loop leaves every produced question
registered. -/
theorem parseLoop_regOK (qt : QuestionType) (diff : DifficultyLevel) :
    ∀ (items : List RawItem) (acc : List Question) (st : ServerState)
      (qs : List Question) (st' : ServerState),
      parseLoop qt diff items acc st = (some qs, st') → regOK acc st →
      regOK qs st' ∧ st.nextId ≤ st'.nextId := by
  intro items
  induction items with
  | nil =>
    intro acc st qs st' heq h0
    unfold parseLoop at heq
    cases heq
    exact ⟨h0, le_refl _⟩
  | cons it rest ih =>
    intro acc st qs st' heq h0
    cases it with
    | bad =>
      unfold parseLoop at heq
      cases heq
    | good d =>
      unfold parseLoop at heq
      have := ih _ _ _ _ heq (regOK_insert acc st _ rfl h0)
      exact ⟨this.1, le_trans (Nat.le_succ _) this.2⟩

/-- When every upstream item is usable, the parse loop appends exactly one
question per item, with the record fields copied verbatim. -/
theorem parseLoop_ok_spec (qt : QuestionType) (diff : DifficultyLevel) :
    ∀ (items : List RawItem) (acc : List Question) (st : ServerState),
      (∀ it ∈ items, ∃ d, it = RawItem.good d) →
      ∃ (qs : List Question) (st' : ServerState),
        parseLoop qt diff items acc st = (some qs, st') ∧
        qs.length = acc.length + items.length ∧
        ∀ q ∈ qs, q ∈ acc ∨ ∃ d, RawItem.good d ∈ items ∧
          q.question = d.question ∧ q.topics = d.topics ∧
          q.expected_answer_points = d.expected_answer_points ∧
          q.follow_up_questions = d.follow_up_questions := by
  intro items
  induction items with
  | nil =>
    intro acc st _
    exact ⟨acc, st, by unfold parseLoop; rfl, by simp, fun q hq => Or.inl hq⟩
  | cons it rest ih =>
    intro acc st hgood
    obtain ⟨d, rfl⟩ := hgood it (List.mem_cons_self _ _)
    obtain ⟨qs, st', heq, hlen, hfields⟩ :=
      ih (acc ++ [gptQuestion qt diff d st.nextId])
        (registerQuestion (gptQuestion qt diff d st.nextId) st)
        (fun it2 h2 => hgood it2 (List.mem_cons_of_mem _ h2))
    refine ⟨qs, st', ?_, ?_, ?_⟩
    · unfold parseLoop
      exact heq
    · rw [hlen]
      simp only [List.length_append, List.length_cons, List.length_nil]
      omega
    · intro q hq
      rcases hfields q hq with hmem | ⟨d2, hd2, hrest⟩
      · rcases List.mem_append.1 hmem with hmem2 | hmem2
        · exact Or.inl hmem2
        · rw [List.mem_singleton] at hmem2
          subst hmem2
          exact Or.inr ⟨d, List.mem_cons_self _ _, rfl, rfl, rfl, rfl⟩
      · exact Or.inr ⟨d2, List.mem_cons_of_mem _ hd2, hrest⟩

/-- Any run of `generate_questions_with_gpt` preserves registration of a
frame list and never decreases the uuid counter. -/
theorem generate_preserves (role : String) (qt : QuestionType) (diff : DifficultyLevel)
    (count : Nat) (topics : Option (List String)) (upstream : UpstreamQ)
    (qs0 : List Question) (st : ServerState)
    (res : Except PyError (List Question)) (st' : ServerState)
    (heq : generate_questions_with_gpt role qt diff count topics upstream st = (res, st'))
    (h0 : regOK qs0 st) :
    regOK qs0 st' ∧ st.nextId ≤ st'.nextId := by
  cases upstream with
  | exn =>
    unfold generate_questions_with_gpt generate_fallback_questions at heq
    exact fallbackGo_preserves qt diff qs0 _ _ _ _ _ heq h0
  | data items =>
    simp only [generate_questions_with_gpt] at heq
    cases hp : parseLoop qt diff items [] st with
    | mk pres pst =>
      cases pres with
      | some qs =>
        rw [hp] at heq
        cases heq
        exact parseLoop_preserves qt diff qs0 _ _ _ _ _ hp h0
      | none =>
        rw [hp] at heq
        have h1 := parseLoop_preserves qt diff qs0 _ _ _ _ _ hp h0
        unfold generate_fallback_questions at heq
        have h2 := fallbackGo_preserves qt diff qs0 _ _ _ _ _ heq h1.1
        exact ⟨h2.1, le_trans h1.2 h2.2⟩

/-- A successful run of `generate_questions_with_gpt` leaves every
returned question registered under its own id. -/
theorem generate_regOK (role : String) (qt : QuestionType) (diff : DifficultyLevel)
    (count : Nat) (topics : Option (List String)) (upstream : UpstreamQ)
    (st : ServerState) (qs : List Question) (st' : ServerState)
    (heq : generate_questions_with_gpt role qt diff count topics upstream st = (.ok qs, st')) :
    regOK qs st' ∧ st.nextId ≤ st'.nextId := by
  cases upstream with
  | exn =>
    unfold generate_questions_with_gpt generate_fallback_questions at heq
    exact fallbackGo_regOK qt diff _ _ _ _ _ heq (regOK_nil st)
  | data items =>
    simp only [generate_questions_with_gpt] at heq
    cases hp : parseLoop qt diff items [] st with
    | mk pres pst =>
      cases pres with
      | some qs2 =>
        rw [hp] at heq
        cases heq
        exact parseLoop_regOK qt diff _ _ _ _ _ hp (regOK_nil st)
      | none =>
        rw [hp] at heq
        have h1 := parseLoop_preserves qt diff [] _ _ _ _ _ hp (regOK_nil st)
        unfold generate_fallback_questions at heq
        have h2 := fallbackGo_regOK qt diff _ _ _ _ _ heq (regOK_nil pst)
        exact ⟨h2.1, le_trans h1.2 h2.2⟩

theorem startLoop_regOK (role : String) (diff : DifficultyLevel) (qcount : Nat)
    (upstream : Nat → UpstreamQ) :
    ∀ (types : List QuestionType) (idx : Nat) (acc : List Question) (st : ServerState)
      (qs : List Question) (st' : ServerState),
      startLoop role diff qcount upstream types idx acc st = (.ok qs, st') → regOK acc st →
      regOK qs st' ∧ st.nextId ≤ st'.nextId := by
  intro types
  induction types with
  | nil =>
    intro idx acc st qs st' heq h0
    unfold startLoop at heq
    cases heq
    exact ⟨h0, le_refl _⟩
  | cons qt rest ih =>
    intro idx acc st qs st' heq h0
    unfold startLoop at heq
    cases hg : generate_questions_with_gpt role qt diff qcount none (upstream idx) st with
    | mk gres gst =>
      cases gres with
      | error e =>
        rw [hg] at heq
        cases heq
      | ok qs1 =>
        rw [hg] at heq
        have hacc := generate_preserves role qt diff qcount none (upstream idx) acc st _ _ hg h0
        have hqs1 := generate_regOK role qt diff qcount none (upstream idx) st qs1 gst hg
        have hcat : regOK (acc ++ qs1) gst := by
          intro p hp
          rcases List.mem_append.1 hp with hp | hp
          · exact hacc.1 p hp
          · exact hqs1.1 p hp
        have hres := ih _ _ _ _ _ heq hcat
        exact ⟨hres.1, le_trans hacc.2 hres.2⟩

/-- C10: every question returned by question generation (upstream-success
and fallback path alike, including the questions placed in a session by
start) is registered in the Question Store under its own id in the
post-state; and a submit-answer on a registered id succeeds (no 404). -/
theorem generated_questions_registered :
    (∀ (role : String) (qt : QuestionType) (diff : DifficultyLevel) (count : Nat)
        (topics : Option (List String)) (upstream : UpstreamQ) (st : ServerState)
        (qs : List Question) (st' : ServerState),
      generate_questions_with_gpt role qt diff count topics upstream st = (.ok qs, st') →
      ∀ q ∈ qs, dget q.id st'.questions_db = some q) ∧
    (∀ (req : MockInterviewRequest) (upstream : Nat → UpstreamQ) (st : ServerState)
        (mi : MockInterview) (st' : ServerState),
      start_mock_interview req upstream st = (.ok mi, st') →
      ∀ q ∈ mi.questions, dget q.id st'.questions_db = some q) ∧
    (∀ (sub : AnswerSubmission) (upstream : UpstreamE) (st : ServerState) (q : Question),
      dget sub.question_id st.questions_db = some q →
      submit_answer sub upstream st =
        (.ok (evaluate_answer_with_gpt q sub.user_answer upstream), st)) := by
  refine ⟨?_, ?_, ?_⟩
  · intro role qt diff count topics upstream st qs st' heq q hq
    exact ((generate_regOK role qt diff count topics upstream st qs st' heq).1 q hq).1
  · intro req upstream st mi st' heq
    simp only [start_mock_interview] at heq
    by_cases hlen : req.question_types.length = 0
    · rw [if_pos hlen] at heq
      cases heq
    · rw [if_neg hlen] at heq
      cases hs : startLoop req.role req.difficulty (max 2 (10 / req.question_types.length))
          upstream req.question_types 0 [] { st with nextId := st.nextId + 1 } with
      | mk sres sst =>
        cases sres with
        | error e =>
          rw [hs] at heq
          cases heq
        | ok all_questions =>
          rw [hs] at heq
          cases heq
          intro q hq
          exact ((startLoop_regOK req.role req.difficulty
            (max 2 (10 / req.question_types.length)) upstream req.question_types 0 []
            { st with nextId := st.nextId + 1 } all_questions sst hs
            (regOK_nil _)).1 q hq).1
  · intro sub upstream st q hq
    unfold submit_answer
    rw [hq]

/-- A concrete fallback generation run for the C10 witness. -/
def cFallbackRun : Except PyError (List Question) × ServerState :=
  generate_questions_with_gpt "r" QuestionType.technical DifficultyLevel.medium 2 none
    UpstreamQ.exn initState

/-- The question list of `cFallbackRun`. -/
def cFQs : List Question :=
  match cFallbackRun.1 with
  | .ok qs => qs
  | .error _ => []

/-- C10 witness: a fallback generation on the empty state registers its
first returned question, and submitting against a registered id returns
the evaluation rather than a 404. -/
theorem generated_questions_registered_witness :
    (generate_questions_with_gpt "r" QuestionType.technical DifficultyLevel.medium 2 none
        UpstreamQ.exn initState = (.ok cFQs, cFallbackRun.2) ∧
      cFQs.getD 0 (sampleQuestion 0) ∈ cFQs) ∧
    dget (cFQs.getD 0 (sampleQuestion 0)).id cFallbackRun.2.questions_db =
      some (cFQs.getD 0 (sampleQuestion 0)) ∧
    (dget 1 sampleState.questions_db = some (sampleQuestion 1) ∧
      submit_answer ⟨1, "a", none⟩ .exn sampleState =
        (.ok (evaluate_answer_with_gpt (sampleQuestion 1) "a" .exn), sampleState)) :=
  ⟨⟨by rfl, by decide⟩,
   generated_questions_registered.1 "r" .technical .medium 2 none .exn initState cFQs
     cFallbackRun.2 (by rfl) _ (by decide),
   by rfl,
   generated_questions_registered.2.2 ⟨1, "a", none⟩ .exn sampleState (sampleQuestion 1)
     (by rfl)⟩

/-! ## C3: per-type question counts in start -/

/-- The concatenation of per-type generation results, one generator call
per requested type in list order, each asking for `qcount` questions
(spec-side restatement of what start's loop should produce). -/
def genSeq (role : String) (diff : DifficultyLevel) (qcount : Nat) (upstream : Nat → UpstreamQ) :
    List QuestionType → Nat → ServerState → Except PyError (List Question) × ServerState
  | [], _, st => (.ok [], st)
  | qt :: rest, idx, st =>
    match generate_questions_with_gpt role qt diff qcount none (upstream idx) st with
    | (.error e, st') => (.error e, st')
    | (.ok qs, st') =>
      match genSeq role diff qcount upstream rest (idx + 1) st' with
      | (.error e, st'') => (.error e, st'')
      | (.ok more, st'') => (.ok (qs ++ more), st'')

theorem startLoop_eq_genSeq (role : String) (diff : DifficultyLevel) (qcount : Nat)
    (upstream : Nat → UpstreamQ) :
    ∀ (types : List QuestionType) (idx : Nat) (acc : List Question) (st : ServerState),
      startLoop role diff qcount upstream types idx acc st =
        match genSeq role diff qcount upstream types idx st with
        | (.ok qs, st') => (.ok (acc ++ qs), st')
        | (.error e, st') => (.error e, st') := by
  intro types
  induction types with
  | nil =>
    intro idx acc st
    unfold startLoop genSeq
    simp
  | cons qt rest ih =>
    intro idx acc st
    unfold startLoop genSeq
    cases hg : generate_questions_with_gpt role qt diff qcount none (upstream idx) st with
    | mk gres gst =>
      cases gres with
      | error e => rfl
      | ok qs1 =>
        show startLoop role diff qcount upstream rest (idx + 1) (acc ++ qs1) gst =
          match (match genSeq role diff qcount upstream rest (idx + 1) gst with
            | (Except.error e, st2) => (Except.error e, st2)
            | (Except.ok more, st2) => (Except.ok (qs1 ++ more), st2)) with
          | (Except.ok qs2, st2) => (Except.ok (acc ++ qs2), st2)
          | (Except.error e, st2) => (Except.error e, st2)
        rw [ih]
        cases hrest : genSeq role diff qcount upstream rest (idx + 1) gst with
        | mk rres rst =>
          cases rres with
          | error e => rfl
          | ok more => simp

/-- The `MockInterview` body returned by start. -/
def mkInterviewResp (iid : Nat) (role : String) (qs : List Question) : MockInterview :=
  { interview_id := iid, role := role, status := .not_started, questions := qs,
    start_time := none, end_time := none }

/-- The session record start stores in the Session Registry. -/
def mkInterviewSession (iid : Nat) (role : String) (qs : List Question) : Session :=
  { interview_id := iid, role := role, status := .not_started, questions := qs,
    start_time := none, end_time := none, answers := [] }

/-- C3: for every start request with k ≥ 1 question types, start asks the
generator for exactly `max 2 (10 / k)` questions per listed type (5 per
type for k = 2, total request 10; 3 per type for k = 3, total 9), calls
run in list order from the post-uuid-allocation state, and the session's
question list is the concatenation of the per-type results (`genSeq`). -/
theorem start_requests_per_type (req : MockInterviewRequest) (upstream : Nat → UpstreamQ)
    (st : ServerState) (hk : 1 ≤ req.question_types.length) :
    (req.question_types.length = 2 → max 2 (10 / req.question_types.length) = 5 ∧
      req.question_types.length * max 2 (10 / req.question_types.length) = 10) ∧
    (req.question_types.length = 3 → max 2 (10 / req.question_types.length) = 3 ∧
      req.question_types.length * max 2 (10 / req.question_types.length) = 9) ∧
    (∀ (qs : List Question) (st' : ServerState),
      genSeq req.role req.difficulty (max 2 (10 / req.question_types.length)) upstream
          req.question_types 0 ({ st with nextId := st.nextId + 1 }) = (.ok qs, st') →
      start_mock_interview req upstream st =
        (.ok (mkInterviewResp st.nextId req.role qs),
         withSession st' st.nextId (mkInterviewSession st.nextId req.role qs))) := by
  refine ⟨fun h2 => by rw [h2]; exact ⟨rfl, rfl⟩, fun h3 => by rw [h3]; exact ⟨rfl, rfl⟩, ?_⟩
  intro qs st' hgen
  simp only [start_mock_interview]
  rw [if_neg (by omega)]
  rw [startLoop_eq_genSeq]
  rw [hgen]
  rfl

/-- The concrete start request for the C3 witness: the default two-type
case. -/
def cStartReq : MockInterviewRequest :=
  { role := "SE", duration_minutes := 30,
    question_types := [QuestionType.technical, QuestionType.behavioral],
    difficulty := DifficultyLevel.medium }

/-- The concrete per-type generation run for the C3 witness (both
upstream calls fail over to the fallback). -/
def cGenRun : Except PyError (List Question) × ServerState :=
  genSeq "SE" DifficultyLevel.medium 5 (fun _ => UpstreamQ.exn)
    [QuestionType.technical, QuestionType.behavioral] 0 ({ initState with nextId := 1 })

/-- The question list of `cGenRun`. -/
def cGenQs : List Question :=
  match cGenRun.1 with
  | .ok qs => qs
  | .error _ => []

/-- C3 witness: starting the two-type interview on the empty state asks
for 5 questions per type and stores the concatenated per-type results. -/
theorem start_requests_per_type_witness :
    1 ≤ cStartReq.question_types.length ∧
    (cStartReq.question_types.length = 2 →
      max 2 (10 / cStartReq.question_types.length) = 5 ∧
      cStartReq.question_types.length * max 2 (10 / cStartReq.question_types.length) = 10) ∧
    genSeq cStartReq.role cStartReq.difficulty
        (max 2 (10 / cStartReq.question_types.length)) (fun _ => UpstreamQ.exn)
        cStartReq.question_types 0
        ({ initState with nextId := initState.nextId + 1 }) = (.ok cGenQs, cGenRun.2) ∧
    start_mock_interview cStartReq (fun _ => UpstreamQ.exn) initState =
      (.ok (mkInterviewResp initState.nextId cStartReq.role cGenQs),
       withSession cGenRun.2 initState.nextId
         (mkInterviewSession initState.nextId cStartReq.role cGenQs)) :=
  ⟨by decide,
   (start_requests_per_type cStartReq (fun _ => UpstreamQ.exn) initState (by decide)).1,
   by rfl,
   (start_requests_per_type cStartReq (fun _ => UpstreamQ.exn) initState (by decide)).2.2
     cGenQs cGenRun.2 (by rfl)⟩

/-! ## C5: size and field guarantees of generate-questions -/

/-- A concrete valid generate request (count 5). -/
def cReq5 : QuestionRequest :=
  { role := "SE", question_type := QuestionType.technical,
    difficulty := DifficultyLevel.medium, count := 5, topics := none }

/-- C5 counterexample: the claim promises between 1 and N records for
every possible upstream response, but when the upstream succeeds with an
empty JSON array the endpoint returns 0 records for a valid request with
count 5. -/
theorem generate_empty_upstream_counterexample :
    validQuestionRequest cReq5 ∧
    generate_questions cReq5 (UpstreamQ.data []) initState =
      (.ok ([] : List Question), initState) :=
  ⟨by decide, by rfl⟩

/-- C5 (amended): the 1-to-min(N,3) record count and the non-empty field
lists are guaranteed only on the fallback path (for the question types
that have templates); on the upstream-success path the endpoint returns
exactly one record per upstream item — possibly 0, possibly more than N —
with the three list fields copied verbatim and unvalidated from the
upstream response (so they may be empty). -/
theorem generate_questions_amended (req : QuestionRequest) (upstream : UpstreamQ)
    (st : ServerState) (hvalid : validQuestionRequest req) :
    (upstream = .exn → req.question_type ≠ .system_design →
      ∃ (qs : List Question) (st' : ServerState),
        generate_questions req upstream st = (.ok qs, st') ∧
        qs.length = min req.count 3 ∧ 1 ≤ qs.length ∧ qs.length ≤ 3 ∧
        qs.length ≤ req.count ∧
        ∀ q ∈ qs, q.topics ≠ [] ∧ q.expected_answer_points ≠ [] ∧
          q.follow_up_questions ≠ []) ∧
    (∀ items, upstream = .data items → (∀ it ∈ items, ∃ d, it = RawItem.good d) →
      ∃ (qs : List Question) (st' : ServerState),
        generate_questions req upstream st = (.ok qs, st') ∧
        qs.length = items.length ∧
        ∀ q ∈ qs, ∃ d, RawItem.good d ∈ items ∧ q.question = d.question ∧
          q.topics = d.topics ∧ q.expected_answer_points = d.expected_answer_points ∧
          q.follow_up_questions = d.follow_up_questions) := by
  constructor
  · intro hexn hsd
    subst hexn
    obtain ⟨tl, htl⟩ : ∃ tl, fallbackTemplates req.question_type = some tl := by
      cases hqt : req.question_type with
      | technical => exact ⟨_, rfl⟩
      | behavioral => exact ⟨_, rfl⟩
      | hr => exact ⟨_, rfl⟩
      | system_design => exact absurd hqt hsd
    obtain ⟨qs, st', heq, hlen, hfields⟩ :=
      fallbackGo_ok_spec req.question_type req.difficulty tl htl
        (List.range (min req.count 3)) [] st
    have hlen2 : qs.length = min req.count 3 := by
      rw [hlen]
      simp [List.length_range]
    have hc1 : 1 ≤ req.count := hvalid.1
    refine ⟨qs, st', ?_, hlen2, by omega, by omega, by omega, ?_⟩
    · unfold generate_questions generate_questions_with_gpt generate_fallback_questions
      exact heq
    · intro q hq
      rcases hfields q hq with hmem | ⟨ht, he, hf⟩
      · simp at hmem
      · rw [ht, he, hf]
        refine ⟨by simp, by simp, by simp⟩
  · intro items hdata hgood
    subst hdata
    obtain ⟨qs, st', heq, hlen, hfields⟩ :=
      parseLoop_ok_spec req.question_type req.difficulty items [] st hgood
    refine ⟨qs, st', ?_, by simpa using hlen, ?_⟩
    · simp only [generate_questions, generate_questions_with_gpt]
      rw [heq]
    · intro q hq
      rcases hfields q hq with hmem | hd
      · simp at hmem
      · exact hd

/-- C5 witness for the amended claim: a valid technical request with
count 5 on the fallback path returns exactly 3 questions with the fixed
non-empty field lists. -/
theorem generate_questions_amended_witness :
    (validQuestionRequest cReq5 ∧
      cReq5.question_type ≠ QuestionType.system_design) ∧
    (∃ (qs : List Question) (st' : ServerState),
      generate_questions cReq5 .exn initState = (.ok qs, st') ∧
      qs.length = min cReq5.count 3 ∧ 1 ≤ qs.length ∧ qs.length ≤ 3 ∧
      qs.length ≤ cReq5.count ∧
      ∀ q ∈ qs, q.topics ≠ [] ∧ q.expected_answer_points ≠ [] ∧
        q.follow_up_questions ≠ []) :=
  ⟨⟨by decide, by decide⟩,
   (generate_questions_amended cReq5 .exn initState (by decide)).1 rfl (by decide)⟩

end InterviewPrep
